import Mathlib

/-!
Shallow embedding of `qutebrowser/misc/utilcmds.py` (the `later` and
`repeat` commands and the `Profiler.debug_profile` sub-command dispatch),
together with theorems settling the specification claims about them.

Python exceptions are modelled by the `PyError` type: `commandError`
corresponds to `cmdexc.CommandError` (a user-facing command error), while
`attributeError` corresponds to a Python `AttributeError` escaping as a
non-command error.  Side effects on external collaborators (the sampling
profile, the spawned visualizer process, files, timers) are recorded as
explicit event traces.
-/

set_option autoImplicit false

namespace Utilcmds

/-- Errors a modelled call can raise: a user-facing `cmdexc.CommandError`
with its message, or a Python `AttributeError` (a non-command error). -/
inductive PyError where
  | commandError (msg : String)
  | attributeError (msg : String)
deriving Repr, DecidableEq

/-- Slots that can be connected to the `later` timer's timeout signal:
`functools.partial(commandrunner.run_safely, command)` and
`timer.deleteLater`. -/
inductive Slot where
  | runSafely (command : String)
  | deleteLaterSlot
deriving Repr, DecidableEq

/-- The `usertypes.Timer` object built by `later`, as far as the claims
observe it: its single-shot flag, its interval, and the slots connected to
its timeout signal, in connection order. -/
structure Timer where
  singleShot : Bool
  interval : Int
  timeoutSlots : List Slot
deriving Repr, DecidableEq

/-- Firing the timer runs its connected timeout slots in order. -/
def Timer.fire (t : Timer) : List Slot :=
  t.timeoutSlots

/-- Lifecycle events of the timer allocated by `later`, traced so that
resource-release claims can be stated. -/
inductive LaterEvent where
  | timerCreated
  | timerStarted
  | timerDeleteLater
deriving Repr, DecidableEq

/-- Largest value accepted by `QTimer.setInterval`: the argument is
converted to a C `int`, and PyQt raises `OverflowError` beyond `2^31 - 1`. -/
def qtIntMax : Int := 2147483647

/-- The `later` command (utilcmds.py lines 53-79).  Returns the outcome
(the started timer, or the raised error) together with the trace of timer
lifecycle events.  `raise cmdexc.CommandError` for a negative `ms` happens
before the timer object is created; an `OverflowError` from `setInterval`
is turned into a `CommandError`, and the bare `except:` block calls
`timer.deleteLater()` before re-raising. -/
def later (ms : Int) (command : String) :
    Except PyError Timer × List LaterEvent :=
  if ms < 0 then
    (.error (.commandError "I can\x27t run something in the past!"), [])
  else
    -- timer = usertypes.Timer(name='later', parent=app)
    if ms > qtIntMax then
      -- timer.setInterval(ms) raises OverflowError, converted to a
      -- CommandError; the outer except calls timer.deleteLater() and
      -- re-raises.
      (.error (.commandError
          "Numeric argument is too large for internal int representation."),
       [.timerCreated, .timerDeleteLater])
    else
      (.ok { singleShot := true
             interval := ms
             timeoutSlots := [.runSafely command, .deleteLaterSlot] },
       [.timerCreated, .timerStarted])

/-- The `repeat` command (utilcmds.py lines 82-94).  Returns the list of
command strings passed to `commandrunner.run_safely`, in invocation
order. -/
def repeat_cmd (times : Int) (command : String) :
    Except PyError (List String) :=
  if times < 0 then
    .error (.commandError "A negative count doesn\x27t make sense.")
  else
    .ok (List.replicate times.toNat command)

/-- A `cProfile.Profile` sampling session as the claims observe it: an
identity (`sid`, fresh per `cProfile.Profile()` allocation), whether
sampling is currently enabled, and the accumulated samples (abstracted to
a count). -/
structure CProfileSession where
  sid : Nat
  enabled : Bool
  samples : Nat
deriving Repr, DecidableEq

/-- State owned by the `Profiler` object: the optional sampling session
(`self._app.profile`), the optional tracked visualizer process handle
(`self._proc`), and fresh-identity supplies for new sessions and
processes. -/
structure ProfilerState where
  profile : Option CProfileSession
  proc : Option Nat
  nextSid : Nat
  nextPid : Nat
deriving Repr, DecidableEq

/-- Observable side effects of `debug_profile` on external collaborators. -/
inductive ProfEvent where
  | enableSampling (sid : Nat)
  | disableSampling (sid : Nat)
  | dumpStats (sid : Nat) (path : String)
  | procSpawned (pid : Nat) (port : Nat)
  | procTerminated (pid : Nat)
  | procDeleted (pid : Nat)
  | tabOpenScheduled (port : Nat)
deriving Repr, DecidableEq

/-- Environment facts consulted by the `show` sub-command: whether the
snakeviz module imports, whether `sys.frozen` is set, and the ephemeral
port handed back by the probe socket. -/
structure ShowEnv where
  snakevizAvailable : Bool
  frozen : Bool
  port : Nat
deriving Repr, DecidableEq

/-- `Profiler.cleanup_proc` (utilcmds.py lines 237-241): terminate the
tracked process, release it, clear the handle.  When `self._proc` is
`None`, `None.terminate()` would raise `AttributeError`. -/
def cleanup_proc (st : ProfilerState) :
    Except PyError (ProfilerState × List ProfEvent) :=
  match st.proc with
  | none =>
      .error (.attributeError
        "NoneType object has no attribute terminate")
  | some pid =>
      .ok ({ st with proc := none },
           [.procTerminated pid, .procDeleted pid])

/-- `Profiler._show_snakeviz` (utilcmds.py lines 243-269): check that
snakeviz imports, that the interpreter is not frozen and that a profile is
recorded; then spawn the visualizer process on the probed port, dump the
stats to `<tempdir>/profile`, and schedule a tab open on the local URL. -/
def show_snakeviz (env : ShowEnv) (tempdir : String) (st : ProfilerState) :
    Except PyError (ProfilerState × List ProfEvent) :=
  if !env.snakevizAvailable then
    .error (.commandError "SnakeViz was not found!")
  else if env.frozen then
    .error (.commandError "Can\x27t run :profile-show when frozen!")
  else
    match st.profile with
    | none => .error (.commandError "No profile recorded!")
    | some p =>
        let pid := st.nextPid
        .ok ({ st with proc := some pid, nextPid := st.nextPid + 1 },
             [.procSpawned pid env.port,
              .dumpStats p.sid (tempdir ++ "/profile"),
              .tabOpenScheduled env.port])

/-- `Profiler.debug_profile` (utilcmds.py lines 271-311).  `expanduser`
models `os.path.expanduser`.  The guard on line 289 raises before any
sub-command when `self._app.profile is None` and the sub-command is not
`start`.  Line 311 reads `raise cmdexc.commandError(...)` — a lowercase
attribute that does not exist on the `cmdexc` module — so the final
`else` branch raises `AttributeError` instead of the intended
`CommandError`. -/
def debug_profile (env : ShowEnv) (expanduser : String → String)
    (tempdir : String) (st : ProfilerState) (cmd : String)
    (arg : Option String) :
    Except PyError (ProfilerState × List ProfEvent) :=
  if st.profile.isNone && cmd != "start" then
    .error (.commandError "Profiling was never started!")
  else if cmd = "start" then
    match st.profile with
    | none =>
        -- self._app.profile = cProfile.Profile(); self._app.profile.enable()
        .ok ({ st with
                 profile := some { sid := st.nextSid, enabled := true,
                                   samples := 0 }
                 nextSid := st.nextSid + 1 },
             [.enableSampling st.nextSid])
    | some p =>
        -- session already present: only self._app.profile.enable()
        .ok ({ st with profile := some { p with enabled := true } },
             [.enableSampling p.sid])
  else if cmd = "stop" then
    match st.profile with
    | none =>
        .error (.attributeError "NoneType object has no attribute disable")
    | some p =>
        .ok ({ st with profile := some { p with enabled := false } },
             [.disableSampling p.sid])
  else if cmd = "reset" then
    .ok ({ st with profile := none }, [])
  else if cmd = "dump" then
    match arg with
    | none => .error (.commandError "No filename given!")
    | some a =>
        match st.profile with
        | none =>
            .error (.attributeError
              "NoneType object has no attribute dump_stats")
        | some p => .ok (st, [.dumpStats p.sid (expanduser a)])
  else if cmd = "show" then
    show_snakeviz env tempdir st
  else if cmd = "kill" then
    match st.proc with
    | none => .error (.commandError "No process running!")
    | some _ => cleanup_proc st
  else
    -- raise cmdexc.commandError(...): the attribute lookup fails first.
    .error (.attributeError
      "module qutebrowser.commands.cmdexc has no attribute commandError")

/-- State after a `debug_profile` call, the call having raised an error
leaving the state in place.  Convenience for chaining concrete scenarios. -/
def stepState (env : ShowEnv) (expanduser : String → String)
    (tempdir : String) (st : ProfilerState) (cmd : String)
    (arg : Option String) : ProfilerState :=
  match debug_profile env expanduser tempdir st cmd arg with
  | .ok (st2, _) => st2
  | .error _ => st

/-- Freshly initialized profiler: no session, no tracked process. -/
def initState : ProfilerState :=
  { profile := none, proc := none, nextSid := 0, nextPid := 0 }

/-- Default environment for concrete scenarios: snakeviz importable, not
frozen, probe port 8080. -/
def defaultEnv : ShowEnv :=
  { snakevizAvailable := true, frozen := false, port := 8080 }

/-- Profiler state with one active session (what `start` from a fresh
profiler produces): session 0, sampling enabled, no samples yet, no
tracked process. -/
def startedState : ProfilerState :=
  { profile := some { sid := 0, enabled := true, samples := 0 },
    proc := none, nextSid := 1, nextPid := 0 }

/-- C1: with an active session (so the line-289 guard passes), the
sub-command "frobnicate" is none of start/stop/reset/dump/show/kill, and
the call ends in a Python `AttributeError` escaping as a non-command
error — line 311 misspells `cmdexc.CommandError` as `cmdexc.commandError`
— instead of the intended user-facing command error
"Unknown sub-command frobnicate!". -/
theorem c1_unknown_subcommand_raises_attribute_error :
    debug_profile defaultEnv id "/tmp"
      (stepState defaultEnv id "/tmp" initState "start" none)
      "frobnicate" none =
      .error (.attributeError
        "module qutebrowser.commands.cmdexc has no attribute commandError") := by
  rfl

/-- C2 counterexample: a session is started, then reset, then `stop` is
called: the call fails with "Profiling was never started!" even though a
session had been started before, refuting "whenever any session has ever
been started (including after an intervening reset), stop succeeds". -/
theorem c2_counterexample_stop_after_reset :
    debug_profile defaultEnv id "/tmp"
      (stepState defaultEnv id "/tmp"
        (stepState defaultEnv id "/tmp" initState "start" none) "reset" none)
      "stop" none =
      .error (.commandError "Profiling was never started!") := by
  rfl

/-- C2 amended: `stop` fails if and only if no session currently exists
(`self._app.profile is None`, which also holds after a `reset`); whenever
a current session exists, `stop` succeeds and disables sampling on it. -/
theorem c2_stop_iff_current_session (env : ShowEnv)
    (expanduser : String → String) (tempdir : String) (st : ProfilerState) :
    (st.profile = none →
      debug_profile env expanduser tempdir st "stop" none =
        .error (.commandError "Profiling was never started!")) ∧
    (∀ p, st.profile = some p →
      debug_profile env expanduser tempdir st "stop" none =
        .ok ({ st with profile := some { p with enabled := false } },
             [.disableSampling p.sid])) := by
  constructor
  · intro h
    simp [debug_profile, h]
  · intro p h
    simp [debug_profile, h]

/-- C2 witness: concrete instances of both directions of the amended
claim, at a fresh profiler and at a profiler with an active session. -/
theorem c2_stop_iff_current_session_witness :
    (debug_profile defaultEnv id "/tmp" initState "stop" none =
      .error (.commandError "Profiling was never started!")) ∧
    (debug_profile defaultEnv id "/tmp" startedState "stop" none =
      .ok ({ startedState with
               profile := some { sid := 0, enabled := false, samples := 0 } },
           [.disableSampling 0])) :=
  ⟨(c2_stop_iff_current_session defaultEnv id "/tmp" initState).1 rfl,
   (c2_stop_iff_current_session defaultEnv id "/tmp" startedState).2
     { sid := 0, enabled := true, samples := 0 } rfl⟩

/-- C3: `start` is idempotent with respect to session identity: when a
session exists it is kept (same `sid`, same accumulated `samples`) and
merely re-enabled; a fresh session (with the next fresh identity and zero
samples) is created only when none exists. -/
theorem c3_start_idempotent (env : ShowEnv) (expanduser : String → String)
    (tempdir : String) (st : ProfilerState) :
    (∀ p, st.profile = some p →
      debug_profile env expanduser tempdir st "start" none =
        .ok ({ st with profile := some { p with enabled := true } },
             [.enableSampling p.sid])) ∧
    (st.profile = none →
      debug_profile env expanduser tempdir st "start" none =
        .ok ({ st with
                 profile := some { sid := st.nextSid, enabled := true,
                                   samples := 0 }
                 nextSid := st.nextSid + 1 },
             [.enableSampling st.nextSid])) := by
  constructor
  · intro p h
    simp [debug_profile, h]
  · intro h
    simp [debug_profile, h]

/-- C3 witness: starting twice from a fresh profiler keeps session 0 with
its accumulated samples; the second `start` changes nothing but the
enabled flag (already true), and no fresh session is allocated. -/
theorem c3_start_idempotent_witness :
    (debug_profile defaultEnv id "/tmp" initState "start" none =
      .ok (startedState, [.enableSampling 0])) ∧
    (debug_profile defaultEnv id "/tmp" startedState "start" none =
      .ok (startedState, [.enableSampling 0])) :=
  ⟨(c3_start_idempotent defaultEnv id "/tmp" initState).2 rfl,
   (c3_start_idempotent defaultEnv id "/tmp" startedState).1
     { sid := 0, enabled := true, samples := 0 } rfl⟩

/-- C4: when no session exists, each of stop/reset/dump/show fails with
"Profiling was never started!" — the raise happens in the guard before
the sub-command dispatch, so no effect is performed and no state is
returned (in the embedding, an `error` result carries no state change and
no events). -/
theorem c4_no_session_guard (env : ShowEnv) (expanduser : String → String)
    (tempdir : String) (st : ProfilerState) (cmd : String)
    (arg : Option String) (hprof : st.profile = none)
    (hcmd : cmd = "stop" ∨ cmd = "reset" ∨ cmd = "dump" ∨ cmd = "show") :
    debug_profile env expanduser tempdir st cmd arg =
      .error (.commandError "Profiling was never started!") := by
  rcases hcmd with h | h | h | h <;> subst h <;> simp [debug_profile, hprof]

/-- C4 witness: `dump` on a fresh profiler (no session), even with a
filename argument, fails with the never-started error. -/
theorem c4_no_session_guard_witness :
    debug_profile defaultEnv id "/tmp" initState "dump" (some "~/prof") =
      .error (.commandError "Profiling was never started!") :=
  c4_no_session_guard defaultEnv id "/tmp" initState "dump" (some "~/prof")
    rfl (Or.inr (Or.inr (Or.inl rfl)))

/-- C5: on every failure path of `later` occurring after the timer object
is created, the error is the descriptive user-facing command error for the
`setInterval` overflow (the only failing operation inside the `try`
block), and `timer.deleteLater()` runs before the error propagates. -/
theorem c5_timer_released_on_error (ms : Int) (command : String)
    (e : PyError) (hcreated : LaterEvent.timerCreated ∈ (later ms command).2)
    (herr : (later ms command).1 = .error e) :
    e = .commandError
        "Numeric argument is too large for internal int representation." ∧
    (later ms command).2 = [.timerCreated, .timerDeleteLater] := by
  by_cases h1 : ms < 0
  · simp [later, h1] at hcreated
  · by_cases h2 : ms > qtIntMax
    · have h3 := herr
      simp [later, h1, h2] at h3
      exact ⟨h3.symm, by simp [later, h1, h2]⟩
    · simp [later, h1, h2] at herr

/-- C5 witness: an interval just past the C-int range overflows; the
trace shows the timer is created and then released before the command
error propagates. -/
theorem c5_timer_released_on_error_witness :
    (later 2147483648 "open qutebrowser.org").2 =
      [.timerCreated, .timerDeleteLater] :=
  (c5_timer_released_on_error 2147483648 "open qutebrowser.org"
    (.commandError
      "Numeric argument is too large for internal int representation.")
    (by simp [later, qtIntMax]) (by simp [later, qtIntMax])).2

/-- C6 counterexample: on a fresh profiler no visualizer process is
tracked, yet `kill` fails with "Profiling was never started!" (the
line-289 guard) rather than with the "No process running!" error the
claim names. -/
theorem c6_counterexample_kill_without_session :
    debug_profile defaultEnv id "/tmp" initState "kill" none =
      .error (.commandError "Profiling was never started!") := by
  rfl

/-- C6 amended: given an active session, `kill` fails with "No process
running!" when no visualizer process is tracked; a successful `show`
spawns and tracks one process, after which `kill` terminates it and
clears the handle, so an immediately following `kill` fails again. -/
theorem c6_kill_lifecycle (env : ShowEnv) (expanduser : String → String)
    (tempdir : String) (st : ProfilerState) (p : CProfileSession)
    (hprof : st.profile = some p) :
    (st.proc = none →
      debug_profile env expanduser tempdir st "kill" none =
        .error (.commandError "No process running!")) ∧
    (env.snakevizAvailable = true → env.frozen = false →
      ∃ st2 evs,
        debug_profile env expanduser tempdir st "show" none = .ok (st2, evs) ∧
        st2.proc = some st.nextPid ∧
        debug_profile env expanduser tempdir st2 "kill" none =
          .ok ({ st2 with proc := none },
               [.procTerminated st.nextPid, .procDeleted st.nextPid]) ∧
        debug_profile env expanduser tempdir { st2 with proc := none }
            "kill" none =
          .error (.commandError "No process running!")) := by
  constructor
  · intro h
    simp [debug_profile, hprof, h]
  · intro hsv hfr
    refine ⟨{ st with proc := some st.nextPid, nextPid := st.nextPid + 1 },
      [.procSpawned st.nextPid env.port,
       .dumpStats p.sid (tempdir ++ "/profile"),
       .tabOpenScheduled env.port], ?_, rfl, ?_, ?_⟩
    · simp [debug_profile, show_snakeviz, hprof, hsv, hfr]
    · simp [debug_profile, cleanup_proc, hprof]
    · simp [debug_profile, hprof]

/-- C6 witness: the amended lifecycle at a concrete started profiler:
`kill` fails with no process, `show` spawns process 0, `kill` releases it,
and the next `kill` fails again. -/
theorem c6_kill_lifecycle_witness :
    (debug_profile defaultEnv id "/tmp" startedState "kill" none =
      .error (.commandError "No process running!")) ∧
    (∃ st2 evs,
      debug_profile defaultEnv id "/tmp" startedState "show" none =
        .ok (st2, evs) ∧
      st2.proc = some 0 ∧
      debug_profile defaultEnv id "/tmp" st2 "kill" none =
        .ok ({ st2 with proc := none }, [.procTerminated 0, .procDeleted 0]) ∧
      debug_profile defaultEnv id "/tmp" { st2 with proc := none }
          "kill" none =
        .error (.commandError "No process running!")) :=
  ⟨(c6_kill_lifecycle defaultEnv id "/tmp" startedState
      { sid := 0, enabled := true, samples := 0 } rfl).1 rfl,
   (c6_kill_lifecycle defaultEnv id "/tmp" startedState
      { sid := 0, enabled := true, samples := 0 } rfl).2 rfl rfl⟩

/-- C7: a negative count is rejected with a user-facing command error
before any invocation; for a non-negative count, the runner is invoked on
the given command exactly `times` times, in order. -/
theorem c7_repeat_exact (times : Int) (command : String) :
    (times < 0 →
      repeat_cmd times command =
        .error (.commandError "A negative count doesn\x27t make sense.")) ∧
    (0 ≤ times →
      ∃ runs, repeat_cmd times command = .ok runs ∧
        runs.length = times.toNat ∧ ∀ c ∈ runs, c = command) := by
  constructor
  · intro h
    simp [repeat_cmd, h]
  · intro h
    refine ⟨List.replicate times.toNat command, ?_, by simp, ?_⟩
    · simp [repeat_cmd, not_lt.mpr h]
    · intro c hc
      exact List.eq_of_mem_replicate hc

/-- C7 witness: a negative count fails, and `repeat 3` runs the command
exactly three times. -/
theorem c7_repeat_exact_witness :
    (repeat_cmd (-2) "scroll down" =
      .error (.commandError "A negative count doesn\x27t make sense.")) ∧
    (∃ runs, repeat_cmd 3 "scroll down" = .ok runs ∧
      runs.length = 3 ∧ ∀ c ∈ runs, c = "scroll down") := by
  constructor
  · exact (c7_repeat_exact (-2) "scroll down").1 (by decide)
  · have h := (c7_repeat_exact 3 "scroll down").2 (by decide)
    simpa using h

/-- C8: a negative duration is rejected with a user-facing command error
and the trace is empty, so no timer object was created; a non-negative
in-range duration yields a single-shot timer whose firing runs the target
command exactly once. -/
theorem c8_later_spec (ms : Int) (command : String) :
    (ms < 0 →
      (later ms command).1 =
        .error (.commandError "I can\x27t run something in the past!") ∧
      (later ms command).2 = []) ∧
    (0 ≤ ms → ms ≤ qtIntMax →
      ∃ t, (later ms command).1 = .ok t ∧ t.singleShot = true ∧
        t.fire.count (Slot.runSafely command) = 1) := by
  constructor
  · intro h
    simp [later, h]
  · intro h1 h2
    refine ⟨{ singleShot := true, interval := ms,
              timeoutSlots := [.runSafely command, .deleteLaterSlot] },
            ?_, rfl, ?_⟩
    · simp [later, not_lt.mpr h1, not_lt.mpr h2]
    · simp [Timer.fire]

/-- C8 witness: a negative duration is rejected with an empty trace, and
a 250 ms duration yields a single-shot timer firing the command once. -/
theorem c8_later_spec_witness :
    ((later (-5) "open").1 =
      .error (.commandError "I can\x27t run something in the past!") ∧
     (later (-5) "open").2 = []) ∧
    (∃ t, (later 250 "open").1 = .ok t ∧ t.singleShot = true ∧
      t.fire.count (Slot.runSafely "open") = 1) :=
  ⟨(c8_later_spec (-5) "open").1 (by decide),
   (c8_later_spec 250 "open").2 (by decide) (by decide)⟩

/-- C9: with an active session, `dump` without a filename fails with
"No filename given!"; with a filename it dumps the session stats to the
user-expanded path. -/
theorem c9_dump (env : ShowEnv) (expanduser : String → String)
    (tempdir : String) (st : ProfilerState) (p : CProfileSession)
    (hprof : st.profile = some p) :
    (debug_profile env expanduser tempdir st "dump" none =
      .error (.commandError "No filename given!")) ∧
    (∀ a, debug_profile env expanduser tempdir st "dump" (some a) =
      .ok (st, [.dumpStats p.sid (expanduser a)])) := by
  constructor
  · simp [debug_profile, hprof]
  · intro a
    simp [debug_profile, hprof]

/-- C9 witness: at a started profiler, `dump` without a filename fails
and `dump prof.out` writes the stats to the expanded path. -/
theorem c9_dump_witness :
    (debug_profile defaultEnv (fun s => "/home/user/" ++ s) "/tmp"
      startedState "dump" none =
      .error (.commandError "No filename given!")) ∧
    (debug_profile defaultEnv (fun s => "/home/user/" ++ s) "/tmp"
      startedState "dump" (some "prof.out") =
      .ok (startedState, [.dumpStats 0 "/home/user/prof.out"])) :=
  ⟨(c9_dump defaultEnv (fun s => "/home/user/" ++ s) "/tmp" startedState
      { sid := 0, enabled := true, samples := 0 } rfl).1,
   (c9_dump defaultEnv (fun s => "/home/user/" ++ s) "/tmp" startedState
      { sid := 0, enabled := true, samples := 0 } rfl).2 "prof.out"⟩

/-- Profiler state right after a successful `show` on a started profiler:
session 0 active, visualizer process 0 tracked. -/
def showState : ProfilerState :=
  { profile := some { sid := 0, enabled := true, samples := 0 },
    proc := some 0, nextSid := 1, nextPid := 1 }

/-- C10: the no-session guard runs before `kill`: after `reset` while a
visualizer process is tracked, the handle stays in place but `kill` fails
with "Profiling was never started!" rather than "No process running!";
once a new `start` recreates a session, `kill` succeeds and releases the
still-tracked process. -/
theorem c10_guard_shadows_kill (env : ShowEnv) (expanduser : String → String)
    (tempdir : String) (st : ProfilerState) (p : CProfileSession) (pid : Nat)
    (hprof : st.profile = some p) (hproc : st.proc = some pid) :
    ∃ st2,
      debug_profile env expanduser tempdir st "reset" none = .ok (st2, []) ∧
      st2.profile = none ∧ st2.proc = some pid ∧
      debug_profile env expanduser tempdir st2 "kill" none =
        .error (.commandError "Profiling was never started!") ∧
      ∃ st3 evs,
        debug_profile env expanduser tempdir st2 "start" none =
          .ok (st3, evs) ∧
        st3.proc = some pid ∧
        debug_profile env expanduser tempdir st3 "kill" none =
          .ok ({ st3 with proc := none },
               [.procTerminated pid, .procDeleted pid]) := by
  refine ⟨{ st with profile := none }, ?_, rfl, hproc, ?_, ?_⟩
  · simp [debug_profile, hprof]
  · simp [debug_profile]
  · refine ⟨{ st with
                profile := some { sid := st.nextSid, enabled := true,
                                  samples := 0 }
                nextSid := st.nextSid + 1 },
            [.enableSampling st.nextSid], ?_, hproc, ?_⟩
    · simp [debug_profile]
    · simp [debug_profile, cleanup_proc, hproc]

/-- C10 witness: from the post-`show` state, `reset` then `kill` fails
with the never-started error while process 0 stays tracked; after a new
`start`, `kill` releases process 0. -/
theorem c10_guard_shadows_kill_witness :
    ∃ st2,
      debug_profile defaultEnv id "/tmp" showState "reset" none =
        .ok (st2, []) ∧
      st2.profile = none ∧ st2.proc = some 0 ∧
      debug_profile defaultEnv id "/tmp" st2 "kill" none =
        .error (.commandError "Profiling was never started!") ∧
      ∃ st3 evs,
        debug_profile defaultEnv id "/tmp" st2 "start" none = .ok (st3, evs) ∧
        st3.proc = some 0 ∧
        debug_profile defaultEnv id "/tmp" st3 "kill" none =
          .ok ({ st3 with proc := none }, [.procTerminated 0, .procDeleted 0]) :=
  c10_guard_shadows_kill defaultEnv id "/tmp" showState
    { sid := 0, enabled := true, samples := 0 } 0 rfl rfl

end Utilcmds
